import Mathlib

/-!
Verification of the ai-logger session pipeline against its specification.

The development shallowly embeds the Python sources:
parsers/claude_code.py, parsers/codex.py, pipeline.py, cli.py, queue.py,
summarizer.py (the triviality gate), roam.py (publish classification and
block rendering) and state.py.  Pure functions become Lean functions;
stateful parts (session-state store, job queue) are explicit state
passing; Python exceptions become `Except` values.
-/

set_option autoImplicit false
set_option maxRecDepth 10000

namespace AiLogger

/-- Python exception classes that the transcript parser can raise while
processing a line (beyond file-system errors, which are out of scope
because all modelled files exist). -/
inductive PyErr where
  | attributeError
  | typeError
  | validationError
  deriving DecidableEq, Repr

/-- The error text `str(e)` that the CLI hands to the retry queue. The
precise Python rendering is immaterial; one token per exception class. -/
def PyErr.message : PyErr → String
  | .attributeError => "AttributeError"
  | .typeError => "TypeError"
  | .validationError => "ValidationError"

/-- A JSON value as produced by `json.loads`. Numbers are modelled as
integers: no inspected field is numeric in any property below. -/
inductive Json where
  | null
  | bool (b : Bool)
  | num (n : Int)
  | str (s : String)
  | arr (xs : List Json)
  | obj (kvs : List (String × Json))

/-- Lookup in a JSON object. `json.loads` keeps keys unique, so
first-match lookup agrees with Python dict access. -/
def jsonLookup : List (String × Json) → String → Option Json
  | [], _ => none
  | (k, v) :: rest, key => if k = key then some v else jsonLookup rest key

/-- Python `d.get(key, default)`: raises `AttributeError` when the value
is not a dict. -/
def pyGetD (j : Json) (key : String) (d : Json) : Except PyErr Json :=
  match j with
  | .obj kvs => .ok ((jsonLookup kvs key).getD d)
  | _ => .error .attributeError

/-- Display of a JSON value interpolated into a Python f-string
(`f"[Tool: \x7btool_name\x7d]"`). Exact for the scalar cases; container
renderings are abbreviated, which no proved property depends on. -/
def pyDisplay : Json → String
  | .null => "None"
  | .bool true => "True"
  | .bool false => "False"
  | .num n => toString n
  | .str s => s
  | .arr _ => "[...]"
  | .obj _ => "\x7b...\x7d"

/-- models.py `TranscriptMessage`. The optional tool payloads keep the
two fields the source copies out of the matching content block. -/
structure TranscriptMessage where
  role : String
  content : String
  tool_use : Option (Json × Json)
  tool_result : Option (Json × Json)

/-- models.py `ParsedTranscript` exactly as checked in (three fields). -/
structure ParsedTranscript where
  messages : List TranscriptMessage
  raw_text : String
  token_estimate : Nat

/-- The text part one content block contributes in `_extract_content`:
a `text` block contributes its `text` value (default empty, and a
non-string value poisons the later `" ".join` with `TypeError`), a
`tool_use` block contributes its bracketed tool name, a bare string
block contributes itself, anything else nothing. -/
def textPartOf (block : Json) : Except PyErr (Option String) :=
  match block with
  | .obj kvs =>
      match jsonLookup kvs "type" with
      | some (.str "text") =>
          match (jsonLookup kvs "text").getD (.str "") with
          | .str t => .ok (some t)
          | _ => .error .typeError
      | some (.str "tool_use") =>
          .ok (some ("[Tool: " ++ pyDisplay ((jsonLookup kvs "name").getD (.str "unknown")) ++ "]"))
      | _ => .ok none
  | .str s => .ok (some s)
  | _ => .ok none

/-- The collected text parts of a list-valued content. -/
def collectTextParts : List Json → Except PyErr (List String)
  | [] => .ok []
  | b :: rest =>
      match textPartOf b with
      | .error e => .error e
      | .ok none => collectTextParts rest
      | .ok (some p) =>
          match collectTextParts rest with
          | .error e => .error e
          | .ok ps => .ok (p :: ps)

/-- claude_code.py `_extract_content`: string content verbatim, list
content space-joined from its block parts, anything else empty. -/
def extract_content (message_data : Json) : Except PyErr String :=
  match pyGetD message_data "content" .null with
  | .error e => .error e
  | .ok (.str s) => .ok s
  | .ok (.arr blocks) =>
      match collectTextParts blocks with
      | .error e => .error e
      | .ok parts => .ok (String.intercalate " " parts)
  | .ok _ => .ok ""

/-- claude_code.py `_extract_tool_use`: first `tool_use` block of a
list-valued content, as the pair (name, input). -/
def extract_tool_use (message_data : Json) : Option (Json × Json) :=
  match message_data with
  | .obj kvs =>
      match jsonLookup kvs "content" with
      | some (.arr blocks) =>
          blocks.findSome? (fun block =>
            match block with
            | .obj bkvs =>
                match jsonLookup bkvs "type" with
                | some (.str "tool_use") =>
                    some ((jsonLookup bkvs "name").getD .null,
                          (jsonLookup bkvs "input").getD .null)
                | _ => none
            | _ => none)
      | _ => none
  | _ => none

/-- claude_code.py `_extract_tool_result`: first `tool_result` block, as
the pair (tool_use_id, content). -/
def extract_tool_result (message_data : Json) : Option (Json × Json) :=
  match message_data with
  | .obj kvs =>
      match jsonLookup kvs "content" with
      | some (.arr blocks) =>
          blocks.findSome? (fun block =>
            match block with
            | .obj bkvs =>
                match jsonLookup bkvs "type" with
                | some (.str "tool_result") =>
                    some ((jsonLookup bkvs "tool_use_id").getD .null,
                          (jsonLookup bkvs "content").getD .null)
                | _ => none
            | _ => none)
      | _ => none
  | _ => none

/-- One classified physical line of a JSONL file: blank after stripping,
rejected by `json.loads`, or parsed to a JSON value. -/
inductive SrcLine where
  | blank
  | nonJson
  | jsonLine (j : Json)

/-- The claude_code.py loop body for one parsed JSON entry: either an
exception, or `none` (line silently skipped), or the extracted message
together with its contribution to the raw text. Mirrors source order:
the role lookup (AttributeError site) precedes content extraction
(TypeError site), the empty-content skip precedes message construction,
and a non-string role fails pydantic validation of `TranscriptMessage`. -/
def processEntry (entry : Json) : Except PyErr (Option (TranscriptMessage × String)) :=
  match entry with
  | .obj kvs =>
      match (jsonLookup kvs "type").getD .null with
      | .str t =>
          if t = "user" || t = "assistant" then
            let message_data := (jsonLookup kvs "message").getD (.obj [])
            match pyGetD message_data "role" (.str t) with
            | .error e => .error e
            | .ok roleJ =>
                match extract_content message_data with
                | .error e => .error e
                | .ok content =>
                    if content = "" then .ok none
                    else
                      match roleJ with
                      | .str role =>
                          .ok (some
                            (⟨role, content, extract_tool_use message_data,
                              extract_tool_result message_data⟩,
                             (if role = "user" then "User: " else "Assistant: ") ++ content))
                      | _ => .error PyErr.validationError
          else .ok none
      | _ => .ok none
  | _ => .error PyErr.attributeError

/-- Processing of one physical line: blank and malformed lines are
skipped before `json.loads` succeeds. -/
def processLine (l : SrcLine) : Except PyErr (Option (TranscriptMessage × String)) :=
  match l with
  | .blank => .ok none
  | .nonJson => .ok none
  | .jsonLine j => processEntry j

/-- The claude_code.py file loop: accumulated messages and raw parts, or
the first exception raised. -/
def collectLines : List SrcLine → Except PyErr (List TranscriptMessage × List String)
  | [] => .ok ([], [])
  | l :: rest =>
      match processLine l with
      | .error e => .error e
      | .ok r =>
          match collectLines rest with
          | .error e => .error e
          | .ok (ms, ps) =>
              match r with
              | none => .ok (ms, ps)
              | some (m, p) => .ok (m :: ms, p :: ps)

/-- claude_code.py `parse_claude_code_transcript` exactly as checked in
(no offset support): messages, `"\n\n"`-joined raw text and
`len(raw_text) // 4` as token estimate. -/
def parse_claude_code_transcript (lines : List SrcLine) : Except PyErr ParsedTranscript :=
  match collectLines lines with
  | .error e => .error e
  | .ok (ms, ps) =>
      let raw := String.intercalate "\n\n" ps
      .ok ⟨ms, raw, raw.length / 4⟩

/-- Modelled from the spec: the repository model `ParsedTranscript` as
used by pipeline.py, which reads a `total_lines` field that is absent
from the checked-in models.py. Per the spec, `totalLines` is the
absolute length of the source transcript at parse time, independent of
the offset requested. -/
structure ParsedTranscriptFull where
  messages : List TranscriptMessage
  raw_text : String
  token_estimate : Nat
  total_lines : Nat

/-- Modelled from the spec: the incremental variant of
`parse_claude_code_transcript` that pipeline.py calls with a
`start_line` keyword; the checked-in parser lacks the parameter. Per the
spec it parses starting at the stored offset (the first `start_line`
physical lines contribute no messages) and reports `total_lines` as the
full current length of the file. -/
def parse_claude_code_transcript_inc (lines : List SrcLine) (start_line : Nat) :
    Except PyErr ParsedTranscriptFull :=
  match collectLines (lines.drop start_line) with
  | .error e => .error e
  | .ok (ms, ps) =>
      let raw := String.intercalate "\n\n" ps
      .ok ⟨ms, raw, raw.length / 4, lines.length⟩

/-- Python truthiness of a JSON value, used by the codex parser for
`if not text` and by `if session_id`. -/
def pyTruthy : Json → Bool
  | .null => false
  | .bool b => b
  | .num n => n ≠ 0
  | .str s => s ≠ ""
  | .arr xs => !xs.isEmpty
  | .obj kvs => !kvs.isEmpty

/-- codex.py `parse_codex_history`. Every kept entry becomes a user
message; a non-dict JSON line raises `AttributeError` at
`entry.get("session_id")` and a truthy non-string `text` fails pydantic
validation. `total_lines` takes the repository model default 0, matching
the pipeline.py remark that the codex parser has no incremental support. -/
def parse_codex_history (lines : List SrcLine) (session_id : Option String) :
    Except PyErr ParsedTranscriptFull :=
  match collectCodexLines lines with
  | .error e => .error e
  | .ok (ms, ps) =>
      let raw := String.intercalate "\n\n" ps
      .ok ⟨ms, raw, raw.length / 4, 0⟩
where
  processCodexEntry (entry : Json) : Except PyErr (Option (TranscriptMessage × String)) :=
    match entry with
    | .obj kvs =>
        if (match session_id with
            | some sid =>
                sid ≠ "" &&
                  (match jsonLookup kvs "session_id" with
                   | some (.str s) => s ≠ sid
                   | _ => true)
            | none => false) then
          .ok none
        else
          let text := (jsonLookup kvs "text").getD (.str "")
          if pyTruthy text = false then .ok none
          else
            match text with
            | .str s => .ok (some (⟨"user", s, none, none⟩, "User: " ++ s))
            | _ => .error PyErr.validationError
    | _ => .error PyErr.attributeError
  collectCodexLines : List SrcLine → Except PyErr (List TranscriptMessage × List String)
    | [] => .ok ([], [])
    | l :: rest =>
        match (match l with
               | .blank => Except.ok none
               | .nonJson => Except.ok none
               | .jsonLine j => processCodexEntry j) with
        | .error e => .error e
        | .ok r =>
            match collectCodexLines rest with
            | .error e => .error e
            | .ok (ms, ps) =>
                match r with
                | none => .ok (ms, ps)
                | some (m, p) => .ok (m :: ms, p :: ps)

/-- models.py `AgentSource`. -/
inductive AgentSource where
  | claude_code
  | codex
  deriving DecidableEq, Repr

/-- models.py `SessionEvent` (creation timestamp as unix seconds). -/
structure SessionEvent where
  source : AgentSource
  session_id : String
  transcript_path : String
  cwd : String
  machine : String
  tmux_session : Option String
  timestamp : Nat
  deriving DecidableEq, Repr

/-- models.py `PRInfo`. -/
structure PRInfo where
  url : String
  title : String
  action : String
  deriving DecidableEq, Repr

/-- models.py `ServiceInfo`. -/
structure ServiceInfo where
  name : String
  action : String
  deriving DecidableEq, Repr

/-- models.py `ArtifactInfo`. -/
structure ArtifactInfo where
  type : String
  path : String
  description : String
  deriving DecidableEq, Repr

/-- models.py `SessionSummary`. -/
structure SessionSummary where
  summary : String
  prs : List PRInfo
  services : List ServiceInfo
  artifacts : List ArtifactInfo
  deriving DecidableEq, Repr

/-- state.py `SessionState`. -/
structure SessionState where
  last_log_time : Nat
  last_line_count : Nat
  last_summary : String
  deriving DecidableEq, Repr

/-! ## queue.py: the durable retry queue -/

/-- The `status` column of the `jobs` table. -/
inductive JobStatus where
  | pending
  | completed
  | failed
  deriving DecidableEq, Repr

/-- One row of the `jobs` table. The serialized event is kept as the
event value itself; timestamps are unix seconds. -/
structure Job where
  id : Nat
  event : SessionEvent
  status : JobStatus
  error : String
  retry_count : Nat
  created_at : Nat
  updated_at : Nat
  deriving DecidableEq, Repr

/-- The jobs table plus its AUTOINCREMENT counter. -/
structure QueueDB where
  jobs : List Job
  nextId : Nat
  deriving DecidableEq, Repr

/-- queue.py `enqueue_failed`: INSERT a pending row with the serialized
event, the error text, retry count 0 (column default) and both
timestamps set to now; returns the fresh row id. -/
def enqueue_failed (db : QueueDB) (event : SessionEvent) (error : String) (now : Nat) :
    Nat × QueueDB :=
  (db.nextId,
   ⟨db.jobs ++ [⟨db.nextId, event, .pending, error, 0, now, now⟩], db.nextId + 1⟩)

/-- The row transform of the queue.py `mark_completed` UPDATE: the
status is set to completed unconditionally (no guard on the current
status appears in the SQL). -/
def markCompletedJob (now : Nat) (j : Job) : Job :=
  { j with status := .completed, updated_at := now }

/-- The row transform of the queue.py `mark_failed` UPDATE: the CASE
expression reads the pre-increment retry count, so the row turns
`failed` exactly when `retry_count >= max_retries` held before this
call; the error text is replaced and the count incremented. The SQL
matches on the row id only, with no guard on the current status. -/
def markFailedJob (max_retries : Nat) (error : String) (now : Nat) (j : Job) : Job :=
  { j with
    status := if max_retries ≤ j.retry_count then .failed else .pending,
    error := error,
    updated_at := now,
    retry_count := j.retry_count + 1 }

/-- queue.py `mark_completed` on the table: UPDATE WHERE id matches. -/
def mark_completed (db : QueueDB) (job_id : Nat) (now : Nat) : QueueDB :=
  { db with jobs := db.jobs.map (fun j => if j.id = job_id then markCompletedJob now j else j) }

/-- queue.py `mark_failed` on the table: UPDATE WHERE id matches. -/
def mark_failed (db : QueueDB) (job_id : Nat) (error : String) (now : Nat) (max_retries : Nat) :
    QueueDB :=
  { db with
    jobs := db.jobs.map (fun j => if j.id = job_id then markFailedJob max_retries error now j else j) }

/-! ## summarizer.py: the triviality gate -/

/-- Outcome of the `subprocess.run` call made by `is_session_trivial`:
either the process ran (return code, stdout, stderr) or one of the
caught exception classes fired. -/
inductive SubprocOutcome where
  | ran (returncode : Int) (stdout : String) (stderr : String)
  | timeoutExpired
  | fileNotFound
  | subprocessError
  deriving DecidableEq, Repr

/-- summarizer.py `is_session_trivial`. The token estimate of the
transcript and the (would-be) classifier subprocess outcome are the only
inputs the decision reads; the subprocess only runs when the estimate is
at least 100. Python `.strip()`, slicing and `.upper()` become
`String.trim`, `String.drop` and `String.toUpper` (ASCII case mapping,
which every property below stays within). -/
def is_session_trivial (token_estimate : Nat) (classifier : SubprocOutcome) : Bool × String :=
  if token_estimate < 100 then (true, "Session too short")
  else
    match classifier with
    | .ran returncode stdout _ =>
        if returncode ≠ 0 then (false, "Triviality check failed")
        else
          let response := stdout.trim.toUpper
          if response.startsWith "NO" then
            let reason := (stdout.trim.drop 3).trim
            (true, if reason = "" then "Trivial activity" else reason)
          else if response.startsWith "YES" then
            let reason := (stdout.trim.drop 4).trim
            (false, if reason = "" then "Worth logging" else reason)
          else (false, "Unclear triviality check")
    | _ => (false, "Triviality check error")

/-! ## roam.py: publish classification and block rendering -/

/-- Outcome of the single `httpx` POST inside `publish_to_roam`: a
response with status and body text, or one of the caught transport
exception classes. -/
inductive PublishAttempt where
  | response (status : Nat) (body : String)
  | timeout
  | requestError (msg : String)
  deriving DecidableEq, Repr

/-- How `publish_to_roam` classifies one attempt: raise a retryable
error, raise a permanent error, or succeed carrying the response body
(the uid extraction from a successful body is out of scope here). -/
inductive PublishClass where
  | retryable (msg : String)
  | permanent (msg : String)
  | success (body : String)
  deriving DecidableEq, Repr

/-- The classification logic of roam.py `publish_to_roam`, in source
order: 429, then any status at least 500, then everything outside
\x7b200, 204\x7d is permanent with the body in the message, the rest is
success; the caught transport exceptions are retryable. -/
def classify_publish (a : PublishAttempt) : PublishClass :=
  match a with
  | .response status body =>
      if status = 429 then .retryable "Rate limited by Roam API"
      else if 500 ≤ status then .retryable ("Roam server error: " ++ toString status)
      else if status ≠ 200 ∧ status ≠ 204 then
        .permanent ("Roam API error: " ++ toString status ++ " - " ++ body)
      else .success body
  | .timeout => .retryable "Roam API timeout"
  | .requestError m => .retryable ("Network error: " ++ m)

/-- The string tag of an agent source (`AgentSource` is a str enum). -/
def AgentSource.value : AgentSource → String
  | .claude_code => "claude-code"
  | .codex => "codex"

/-- The pull-request child line of `_build_batch_actions`: falsy title
falls back to "Pull Request", and a truthy action other than "created"
is appended in parentheses. -/
def prLine (pr : PRInfo) : String :=
  "#PR [" ++ (if pr.title = "" then "Pull Request" else pr.title) ++ "](" ++ pr.url ++ ")"
    ++ (if pr.action ≠ "" ∧ pr.action ≠ "created" then " (" ++ pr.action ++ ")" else "")

/-- The service child line of `_build_batch_actions`. -/
def serviceLine (svc : ServiceInfo) : String :=
  "#service `" ++ svc.name ++ "` " ++ svc.action

/-- The artifact child line of `_build_batch_actions`. -/
def artifactLine (artifact : ArtifactInfo) : String :=
  "#artifact `" ++ artifact.path ++ "` - " ++ artifact.description

/-- The artifact child lines: the source slices `summary.artifacts[:3]`. -/
def artifactLines (summary : SessionSummary) : List String :=
  (summary.artifacts.take 3).map artifactLine

/-- The optional tmux child line: emitted only when `event.tmux_session`
is truthy (present and non-empty) and differs from the "none" sentinel. -/
def tmuxChildren (event : SessionEvent) : List String :=
  match event.tmux_session with
  | some t => if t ≠ "" ∧ t ≠ "none" then ["tmux:: `" ++ t ++ "`"] else []
  | none => []

/-- The ordered child lines built by roam.py `_build_batch_actions`:
project metadata, optional tmux tag, the summary sentence, one line per
pull request, one line per service, and the capped artifact lines. -/
def buildChildren (event : SessionEvent) (summary : SessionSummary) : List String :=
  ["project:: `" ++ event.cwd ++ "`"] ++ tmuxChildren event ++ [summary.summary]
    ++ summary.prs.map prLine ++ summary.services.map serviceLine ++ artifactLines summary

/-- One create-block action of the batch write. -/
inductive RoamAction where
  | createOnPage (pageTitle : String) (uid : String) (text : String)
  | createChild (parentUid : String) (order : Nat) (text : String)
  deriving DecidableEq, Repr

/-- roam.py `_build_batch_actions`: the parent header block on the daily
page followed by one child action per line of `buildChildren`, ordered
by list position. The wall-clock `HH:MM` stamp and the random parent uid
are passed in as values. -/
def build_batch_actions (event : SessionEvent) (summary : SessionSummary)
    (daily_title : String) (timeHHMM : String) (parent_uid : String) : List RoamAction :=
  RoamAction.createOnPage daily_title parent_uid
      ("**" ++ timeHHMM ++ "** `" ++ event.machine ++ "` [[" ++ event.source.value ++ "]]")
    :: (buildChildren event summary).enum.map
        (fun mp => RoamAction.createChild parent_uid mp.1 mp.2)

/-! ## pipeline.py and cli.py: the per-event orchestration

One invocation is a single synchronous sequence, so the run is embedded
as a pure function of the pre-state of its collaborators: the session
state store, the transcript file content, and the outcomes the external
summarizer and publisher would produce for this run. -/

/-- The collaborators of one `process_session` run. `summarize` is the
outcome of `summarize_transcript` (a `SessionSummary` or the text of the
raised exception) and `publish` the outcome of `publish_to_roam` (a
block uid or the text of the raised exception). -/
structure PipelineEnv where
  stateStore : String → Option SessionState
  transcript : List SrcLine
  classifier : SubprocOutcome
  summarize : Except String SessionSummary
  publish : Except String String
  now : Nat

/-- How one run ends at the cli.py boundary: the returned block uid, a
`SessionSkipped` with its reason, or any other exception text. -/
inductive RunOutcome where
  | success (uid : String)
  | skipped (reason : String)
  | failed (error : String)
  deriving DecidableEq, Repr

/-- The observable effects of one run: its outcome, the session state
store after the run, and whether the triviality-classifier subprocess
was actually spawned. -/
structure RunResult where
  outcome : RunOutcome
  stateStore : String → Option SessionState
  classifierSubprocessRun : Bool

/-- The transcript offset a run starts from: `last_line_count` of the
stored state, or 0 when no state exists. -/
def runStartLine (env : PipelineEnv) (event : SessionEvent) : Nat :=
  match env.stateStore event.session_id with
  | some s => s.last_line_count
  | none => 0

/-- The parse step of `process_session`, dispatched on the event source;
the codex parser is called with the event session id and no offset. -/
def parseForEvent (env : PipelineEnv) (event : SessionEvent) :
    Except PyErr ParsedTranscriptFull :=
  match event.source with
  | .claude_code => parse_claude_code_transcript_inc env.transcript (runStartLine env event)
  | .codex => parse_codex_history env.transcript (some event.session_id)

/-- pipeline.py `process_session` after a successful parse: the
no-new-content and too-short skips, the triviality gate, summarization
with the previous-summary context (which changes only the submitted
text, never the recorded state), publish, and the state save that only a
publish success reaches. -/
def pipelineAfterParse (env : PipelineEnv) (event : SessionEvent)
    (transcript : ParsedTranscriptFull) : RunResult :=
  if transcript.messages.isEmpty then
    ⟨.skipped "No new content since last log", env.stateStore, false⟩
  else if transcript.token_estimate < 50 then
    ⟨.skipped "New content too short to log", env.stateStore, false⟩
  else
    let tr := is_session_trivial transcript.token_estimate env.classifier
    let spawned := decide (100 ≤ transcript.token_estimate)
    if tr.1 then ⟨.skipped ("Trivial session: " ++ tr.2), env.stateStore, spawned⟩
    else
      match env.summarize with
      | .error e => ⟨.failed e, env.stateStore, spawned⟩
      | .ok summary =>
          match env.publish with
          | .error e => ⟨.failed e, env.stateStore, spawned⟩
          | .ok block_uid =>
              ⟨.success block_uid,
               fun sid =>
                 if sid = event.session_id then
                   some ⟨env.now, transcript.total_lines, summary.summary⟩
                 else env.stateStore sid,
               spawned⟩

/-- pipeline.py `process_session`: load state, parse with the stored
offset, then run the rest of the pipeline; a parse exception ends the
run as a failure carrying the exception text. -/
def process_session (env : PipelineEnv) (event : SessionEvent) : RunResult :=
  match parseForEvent env event with
  | .error e => ⟨.failed e.message, env.stateStore, false⟩
  | .ok transcript => pipelineAfterParse env event transcript

/-- cli.py `log`: run the pipeline; a `SessionSkipped` is only reported,
any other exception enqueues the original event with the error text. -/
def log_command (env : PipelineEnv) (event : SessionEvent) (db : QueueDB) (now : Nat) :
    RunResult × QueueDB :=
  let r := process_session env event
  match r.outcome with
  | .failed e => (r, (enqueue_failed db event e now).2)
  | _ => (r, db)

/-! ## Concrete fixtures

Small closed inputs on which the theorems below are instantiated. -/

/-- Whether processing a line raises no Python exception. -/
def lineOk (l : SrcLine) : Bool :=
  match processLine l with
  | .ok _ => true
  | .error _ => false

/-- The message a line contributes, when it contributes one. -/
def lineMessage (l : SrcLine) : Option TranscriptMessage :=
  match processLine l with
  | .ok (some mp) => some mp.1
  | _ => none

/-- A transcript line holding one plain user message. -/
def userLine (c : String) : SrcLine :=
  .jsonLine (.obj [("type", .str "user"),
                   ("message", .obj [("role", .str "user"), ("content", .str c)])])

/-- A `file-history-snapshot` line, which the parser skips. -/
def snapshotLine : SrcLine :=
  .jsonLine (.obj [("type", .str "file-history-snapshot"), ("data", .obj [])])

/-- 400 characters of content, enough to clear both gate floors. -/
def longText : String := String.mk (List.replicate 400 'a')

/-- A generic claude-code event. -/
def eventFix : SessionEvent :=
  ⟨.claude_code, "s0", "/tmp/t.jsonl", "/home/u/proj", "m1", none, 0⟩

/-- Stored state with an offset equal to the fixture transcript length. -/
def stC1 : SessionState := ⟨5, 3, "prev"⟩

def eventC1 : SessionEvent :=
  ⟨.claude_code, "s1", "/tmp/t.jsonl", "/home/u/proj", "m1", none, 0⟩

/-- A run whose stored offset 3 covers the whole 3-line transcript. -/
def envC1 : PipelineEnv :=
  ⟨fun sid => if sid = "s1" then some stC1 else none,
   [userLine "hello one", userLine "hello two", userLine "hello three"],
   .subprocessError, .error "unused", .error "unused", 10⟩

def eventC2 : SessionEvent :=
  ⟨.claude_code, "s2", "/tmp/t.jsonl", "/home/u/proj", "m1", none, 0⟩

/-- A run in which parse, summarize and publish succeed (the classifier
errors out, so the gate falls open to not-trivial and the run proceeds). -/
def envC2 : PipelineEnv :=
  ⟨fun _ => none, [userLine longText],
   .subprocessError,
   .ok ⟨"sum text", [], [], []⟩, .ok "uid-1", 42⟩

/-- The parse result of the `envC2` run. -/
def tC2 : ParsedTranscriptFull :=
  ⟨[⟨"user", longText, none, none⟩], "User: " ++ longText, 101, 1⟩

def sC2 : SessionSummary := ⟨"sum text", [], [], []⟩

def eventC3 : SessionEvent :=
  ⟨.claude_code, "s3", "/tmp/t.jsonl", "/home/u/proj", "m1", none, 0⟩

/-- A run whose parse raises: the only line is valid JSON but not an
object. -/
def envC3 : PipelineEnv :=
  ⟨fun _ => none, [.jsonLine .null],
   .subprocessError, .error "unused", .error "unused", 7⟩

def eventC6 : SessionEvent :=
  ⟨.claude_code, "s6", "/tmp/t.jsonl", "/home/u/proj", "m1", none, 0⟩

/-- A run with one short new message (token estimate 2). -/
def envC6 : PipelineEnv :=
  ⟨fun _ => none, [userLine "hi"],
   .subprocessError, .error "unused", .error "unused", 9⟩

/-- The parse result of the `envC6` run. -/
def tC6 : ParsedTranscriptFull := ⟨[⟨"user", "hi", none, none⟩], "User: hi", 2, 1⟩

/-- A freshly enqueued job: pending with retry count 0. -/
def jobC4 : Job := ⟨1, eventFix, .pending, "Error 0", 0, 0, 0⟩

/-- A job in the terminal failed status (its count exceeds the default
maximum 3, as every job that turned failed under maximum 3 does). -/
def jobC5 : Job := ⟨2, eventFix, .failed, "old", 4, 0, 0⟩

/-- A job in the terminal completed status. -/
def jobC5b : Job := ⟨3, eventFix, .completed, "old", 1, 0, 0⟩

/-- An event whose tmux tag is the empty string: truthy-falsy in Python,
and not the "none" sentinel. -/
def eventC9 : SessionEvent := ⟨.claude_code, "s9", "/tmp/t", "/p", "m", some "", 0⟩

def summaryC9 : SessionSummary := ⟨"did things", [], [], []⟩

/-- An event with an ordinary tmux tag. -/
def eventW9 : SessionEvent := ⟨.claude_code, "s9w", "/tmp/t", "/p", "m", some "dev:0", 0⟩

/-- A summary with four artifacts. -/
def summaryW9 : SessionSummary :=
  ⟨"did things", [], [],
   [⟨"file", "a.py", "a"⟩, ⟨"file", "b.py", "b"⟩, ⟨"file", "c.py", "c"⟩, ⟨"file", "d.py", "d"⟩]⟩

/-- A well-shaped four-line transcript file. -/
def linesC10 : List SrcLine :=
  [userLine "hello there", .nonJson, snapshotLine, .blank]

/-- The raw-text part a line contributes, when it contributes one. -/
def linePart (l : SrcLine) : Option String :=
  match processLine l with
  | .ok (some mp) => some mp.2
  | _ => none

/-! ## Theorems -/

/-- C4 counterexample: with `max_retries = 2`, a freshly enqueued job
(pending, retry count 0) that is marked failed twice has reached retry
count `max_retries` yet is still pending, contradicting the claim that
the status turns failed exactly at the call where the count reaches
`max_retries`. -/
theorem claim4_counterexample :
    (markFailedJob 2 "E2" 1 (markFailedJob 2 "E1" 1 jobC4)).retry_count = 2
    ∧ (markFailedJob 2 "E2" 1 (markFailedJob 2 "E1" 1 jobC4)).status = .pending := by
  decide

/-- C4 (amended): starting from a freshly enqueued job (pending, retry
count 0), the first `max_retries` calls of `mark_failed` leave the job
pending with the retry count equal to the number of calls and the error
text replaced; the status turns failed exactly at call
`max_retries + 1`, where the pre-call count has reached `max_retries`. -/
theorem claim4_retry_exhaustion (max_retries : Nat) (e : String) (now : Nat) (j : Job)
    (hs : j.status = .pending) (hr : j.retry_count = 0) :
    (∀ k, k ≤ max_retries →
        ((markFailedJob max_retries e now)^[k] j).status = .pending
        ∧ ((markFailedJob max_retries e now)^[k] j).retry_count = k)
    ∧ ((markFailedJob max_retries e now)^[max_retries + 1] j).status = .failed
    ∧ ((markFailedJob max_retries e now)^[max_retries + 1] j).retry_count = max_retries + 1
    ∧ ∀ k, 1 ≤ k → ((markFailedJob max_retries e now)^[k] j).error = e := by
  have main : ∀ k, k ≤ max_retries →
      ((markFailedJob max_retries e now)^[k] j).status = .pending
      ∧ ((markFailedJob max_retries e now)^[k] j).retry_count = k := by
    intro k
    induction k with
    | zero => intro _; simpa using ⟨hs, hr⟩
    | succ n ih =>
        intro hk
        have hn := ih (Nat.le_of_succ_le hk)
        rw [Function.iterate_succ_apply']
        refine ⟨?_, ?_⟩
        · simp only [markFailedJob, hn.2]
          rw [if_neg (by omega)]
        · simp only [markFailedJob, hn.2]
  have hm := main max_retries le_rfl
  refine ⟨main, ?_, ?_, ?_⟩
  · rw [Function.iterate_succ_apply']
    simp only [markFailedJob, hm.2]
    rw [if_pos le_rfl]
  · rw [Function.iterate_succ_apply']
    simp only [markFailedJob, hm.2]
  · intro k hk
    match k, hk with
    | n + 1, _ =>
        rw [Function.iterate_succ_apply']
        simp only [markFailedJob]

/-- C4 witness: at `max_retries = 2` on a fresh job, the third failure
call turns the status failed, and the first call sets count 1. -/
theorem claim4_witness :
    ((markFailedJob 2 "E" 1)^[3] jobC4).status = .failed
    ∧ ((markFailedJob 2 "E" 1)^[1] jobC4).retry_count = 1 := by
  have h := claim4_retry_exhaustion 2 "E" 1 jobC4 rfl rfl
  exact ⟨h.2.1, (h.1 1 (by omega)).2⟩

/-- C5 counterexample: `mark_failed` on an already-failed job increments
its retry count again, and on an already-completed job it moves the
status out of the terminal state back to pending — both contradicting
the claimed idempotent no-op on terminal jobs. -/
theorem claim5_counterexample :
    jobC5.status = .failed ∧ jobC5.retry_count = 4
    ∧ (markFailedJob 3 "new" 9 jobC5).retry_count = 5
    ∧ jobC5b.status = .completed
    ∧ (markFailedJob 3 "new" 9 jobC5b).status = .pending := by
  decide

/-- C5 (amended): `mark_completed` on an already-completed job changes
nothing but the updated-at stamp, but `mark_failed` carries no
terminal-status guard: on an already-failed job (whose retry count is at
least the maximum, as for every job that turned failed) the status stays
failed while the retry count is incremented again, and on a completed
job whose count is below the maximum the status is reopened to pending
with the count incremented. -/
theorem claim5_terminal_mutators (max_retries : Nat) (e : String) (now : Nat) (j : Job) :
    (j.status = .completed → markCompletedJob now j = { j with updated_at := now })
    ∧ (j.status = .failed → max_retries ≤ j.retry_count →
        (markFailedJob max_retries e now j).status = .failed
        ∧ (markFailedJob max_retries e now j).retry_count = j.retry_count + 1)
    ∧ (j.status = .completed → j.retry_count < max_retries →
        (markFailedJob max_retries e now j).status = .pending
        ∧ (markFailedJob max_retries e now j).retry_count = j.retry_count + 1) := by
  refine ⟨?_, ?_, ?_⟩
  · intro h
    cases j
    simp only at h
    simp [markCompletedJob, h]
  · intro _ h2
    exact ⟨by simp only [markFailedJob]; rw [if_pos h2], rfl⟩
  · intro _ h2
    exact ⟨by simp only [markFailedJob]; rw [if_neg (by omega)], rfl⟩

/-- C5 witness: repeating `mark_completed` on the completed fixture job
only refreshes the stamp, and `mark_failed` on the failed fixture job
keeps it failed. -/
theorem claim5_witness :
    markCompletedJob 9 jobC5b = { jobC5b with updated_at := 9 }
    ∧ (markFailedJob 3 "new" 9 jobC5).status = .failed := by
  have hb := claim5_terminal_mutators 3 "new" 9 jobC5b
  have hf := claim5_terminal_mutators 3 "new" 9 jobC5
  exact ⟨hb.1 rfl, (hf.2.1 rfl (by decide)).1⟩

/-- C7: for a transcript long enough to reach the classifier (token
estimate at least 100), every transport or availability failure of the
classifier subprocess (non-zero exit, timeout, missing tool, subprocess
error) and every unrecognizable response make `is_session_trivial`
return `(false, reason)` with a check-failure reason rather than a
content judgment: the gate defaults to not trivial. -/
theorem claim7_gate_fails_open (est : Nat) (oc : SubprocOutcome)
    (h100 : 100 ≤ est)
    (hfail : match oc with
      | .ran code stdout _ =>
          code ≠ 0 ∨ (¬ (stdout.trim.toUpper.startsWith "NO")
                       ∧ ¬ (stdout.trim.toUpper.startsWith "YES"))
      | _ => True) :
    (is_session_trivial est oc).1 = false
    ∧ ((is_session_trivial est oc).2 = "Triviality check failed"
        ∨ (is_session_trivial est oc).2 = "Unclear triviality check"
        ∨ (is_session_trivial est oc).2 = "Triviality check error") := by
  cases oc with
  | timeoutExpired =>
      simp only [is_session_trivial]
      rw [if_neg (by omega)]
      exact ⟨rfl, Or.inr (Or.inr rfl)⟩
  | fileNotFound =>
      simp only [is_session_trivial]
      rw [if_neg (by omega)]
      exact ⟨rfl, Or.inr (Or.inr rfl)⟩
  | subprocessError =>
      simp only [is_session_trivial]
      rw [if_neg (by omega)]
      exact ⟨rfl, Or.inr (Or.inr rfl)⟩
  | ran code stdout stderr =>
      simp only [is_session_trivial]
      rw [if_neg (by omega)]
      by_cases hc : code ≠ 0
      · rw [if_pos hc]
        exact ⟨rfl, Or.inl rfl⟩
      · rw [if_neg hc]
        obtain ⟨hno, hyes⟩ : ¬ (stdout.trim.toUpper.startsWith "NO")
            ∧ ¬ (stdout.trim.toUpper.startsWith "YES") := by
          rcases hfail with h | h
          · exact absurd h hc
          · exact h
        rw [if_neg hno, if_neg hyes]
        exact ⟨rfl, Or.inr (Or.inl rfl)⟩

/-- C7 witness: a non-zero-exit classifier on a 100-token transcript is
reported as not trivial with a check-failure reason. -/
theorem claim7_witness :
    (is_session_trivial 100 (SubprocOutcome.ran 1 "" "")).1 = false
    ∧ ((is_session_trivial 100 (SubprocOutcome.ran 1 "" "")).2 = "Triviality check failed"
        ∨ (is_session_trivial 100 (SubprocOutcome.ran 1 "" "")).2 = "Unclear triviality check"
        ∨ (is_session_trivial 100 (SubprocOutcome.ran 1 "" "")).2 = "Triviality check error") :=
  claim7_gate_fails_open 100 (.ran 1 "" "") (by omega) (Or.inl (by decide))

/-- C8 counterexample: status 201 is a 2xx status, yet the publish
classification raises a permanent error carrying the body instead of
succeeding. -/
theorem claim8_counterexample :
    classify_publish (.response 201 "created") = .permanent "Roam API error: 201 - created"
    ∧ 200 ≤ 201 ∧ 201 < 300 := by
  constructor
  · rfl
  · exact ⟨by omega, by omega⟩

/-- C8 (amended): status 429, every status of at least 500, and every
transport timeout or connection error classify as retryable; exactly the
statuses 200 and 204 are success (an empty body is handled after this
classification and is also success); every other status — including the
remaining 2xx statuses such as 201 — raises a permanent error whose
message carries the response body. -/
theorem claim8_publish_classification (status : Nat) (body : String) (m : String) :
    (status = 429 →
        classify_publish (.response status body) = .retryable "Rate limited by Roam API")
    ∧ (500 ≤ status →
        classify_publish (.response status body)
          = .retryable ("Roam server error: " ++ toString status))
    ∧ (status = 200 ∨ status = 204 →
        classify_publish (.response status body) = .success body)
    ∧ (status ≠ 429 → status < 500 → status ≠ 200 → status ≠ 204 →
        classify_publish (.response status body)
          = .permanent ("Roam API error: " ++ toString status ++ " - " ++ body))
    ∧ classify_publish .timeout = .retryable "Roam API timeout"
    ∧ classify_publish (.requestError m) = .retryable ("Network error: " ++ m) := by
  refine ⟨?_, ?_, ?_, ?_, rfl, rfl⟩
  · intro h
    rw [classify_publish, if_pos h]
  · intro h
    rw [classify_publish, if_neg (by omega), if_pos h]
  · rintro (h | h) <;> subst h <;> rfl
  · intro h1 h2 h3 h4
    rw [classify_publish, if_neg h1, if_neg (by omega), if_pos ⟨h3, h4⟩]

/-- C8 witness: a 503 response is retryable, a 302 response is a
permanent error carrying the body, and a 204 empty response succeeds. -/
theorem claim8_witness :
    classify_publish (.response 503 "overloaded") = .retryable "Roam server error: 503"
    ∧ classify_publish (.response 302 "moved") = .permanent "Roam API error: 302 - moved"
    ∧ classify_publish (.response 204 "") = .success "" := by
  have h503 := claim8_publish_classification 503 "overloaded" ""
  have h302 := claim8_publish_classification 302 "moved" ""
  have h204 := claim8_publish_classification 204 "" ""
  exact ⟨h503.2.1 (by omega), h302.2.2.2.1 (by omega) (by omega) (by omega) (by omega),
         h204.2.2.1 (Or.inr rfl)⟩

/-- C9 counterexample: an event whose tmux value is the empty string is
not the "none" sentinel, yet the rendered children carry no tmux line,
contradicting the claim of exactly one tmux line for any value other
than "none". -/
theorem claim9_counterexample :
    eventC9.tmux_session = some "" ∧ (some "" : Option String) ≠ some "none"
    ∧ buildChildren eventC9 summaryC9 = ["project:: `/p`", "did things"] := by
  refine ⟨rfl, by decide, ?_⟩
  decide

/-- C9 (amended): the rendered children contain at most 3 artifact lines
(their count is the minimum of 3 and the artifact count, so 4 artifacts
yield exactly 3 lines, extras silently dropped); the tmux line is
omitted when the tmux value is the sentinel "none" — and likewise when
it is absent or the empty string, both falsy — and exactly one tmux
line is emitted for every other value. -/
theorem claim9_rendering (event : SessionEvent) (summary : SessionSummary) :
    (artifactLines summary).length = min 3 summary.artifacts.length
    ∧ (summary.artifacts.length = 4 → (artifactLines summary).length = 3)
    ∧ (event.tmux_session = some "none" → tmuxChildren event = [])
    ∧ (∀ t, event.tmux_session = some t → t ≠ "" → t ≠ "none" →
        tmuxChildren event = ["tmux:: `" ++ t ++ "`"])
    ∧ ((event.tmux_session = none ∨ event.tmux_session = some "") → tmuxChildren event = [])
    ∧ buildChildren event summary
        = ["project:: `" ++ event.cwd ++ "`"] ++ tmuxChildren event ++ [summary.summary]
          ++ summary.prs.map prLine ++ summary.services.map serviceLine
          ++ artifactLines summary := by
  have hlen : (artifactLines summary).length = min 3 summary.artifacts.length := by
    simp [artifactLines]
  refine ⟨hlen, ?_, ?_, ?_, ?_, rfl⟩
  · intro h4
    rw [hlen, h4]
    decide
  · intro h
    simp [tmuxChildren, h]
  · intro t ht hne hnone
    simp only [tmuxChildren, ht]
    rw [if_pos ⟨hne, hnone⟩]
  · rintro (h | h) <;> simp [tmuxChildren, h]

/-- C9 witness: four artifacts render exactly three artifact lines, and
an ordinary tmux value renders exactly one tmux line. -/
theorem claim9_witness :
    (artifactLines summaryW9).length = 3
    ∧ tmuxChildren eventW9 = ["tmux:: `dev:0`"] := by
  have h := claim9_rendering eventW9 summaryW9
  exact ⟨h.2.1 (by decide), h.2.2.2.1 "dev:0" rfl (by decide) (by decide)⟩

/-- C6: when the run's parse yields new content whose token estimate is
strictly below 50, the pipeline ends skipped with the too-short reason
before the triviality classifier subprocess is ever spawned. -/
theorem claim6_short_skip (env : PipelineEnv) (event : SessionEvent) (t : ParsedTranscriptFull)
    (hp : parseForEvent env event = .ok t)
    (hne : t.messages ≠ [])
    (hlt : t.token_estimate < 50) :
    process_session env event
      = ⟨.skipped "New content too short to log", env.stateStore, false⟩ := by
  have hie : t.messages.isEmpty = false := by
    cases hm : t.messages with
    | nil => exact absurd hm hne
    | cons a l => rfl
  simp only [process_session, hp, pipelineAfterParse, hie]
  rw [if_neg (by simp), if_pos hlt]

/-- C6 witness: a single two-word new message (token estimate 2) is
skipped as too short with the classifier never spawned. -/
theorem claim6_witness :
    process_session envC6 eventC6
      = ⟨.skipped "New content too short to log", envC6.stateStore, false⟩ :=
  claim6_short_skip envC6 eventC6 tC6 rfl
    (by exact List.cons_ne_nil _ _) (by decide)

/-- C2: in every run whose outcome is a publish success, the state saved
for the event's session is exactly `last_line_count = total_lines` of
that run's parse, `last_summary` = the summary string of that run's
summarization, and `last_log_time` = the run's clock. -/
theorem claim2_state_saved (env : PipelineEnv) (event : SessionEvent)
    (t : ParsedTranscriptFull) (s : SessionSummary) (uid : String)
    (hp : parseForEvent env event = .ok t)
    (hs : env.summarize = .ok s)
    (hout : (process_session env event).outcome = .success uid) :
    (process_session env event).stateStore event.session_id
      = some ⟨env.now, t.total_lines, s.summary⟩ := by
  simp only [process_session, hp, pipelineAfterParse] at hout ⊢
  by_cases hm : t.messages.isEmpty = true
  · rw [if_pos hm] at hout
    simp at hout
  · rw [if_neg hm] at hout ⊢
    by_cases hshort : t.token_estimate < 50
    · rw [if_pos hshort] at hout
      simp at hout
    · rw [if_neg hshort] at hout ⊢
      by_cases htr : (is_session_trivial t.token_estimate env.classifier).1 = true
      · rw [if_pos htr] at hout
        simp at hout
      · rw [if_neg htr] at hout ⊢
        simp only [hs] at hout ⊢
        cases hpub : env.publish with
        | error e =>
            rw [hpub] at hout
            simp at hout
        | ok uid2 =>
            simp only [hpub]
            simp

/-- C2 witness: the all-steps-succeed fixture run saves state
`⟨42, 1, "sum text"⟩` for its session. -/
theorem claim2_witness :
    (process_session envC2 eventC2).stateStore "s2" = some ⟨42, 1, "sum text"⟩ :=
  claim2_state_saved envC2 eventC2 tC2 sC2 "uid-1" rfl rfl (by decide)

/-- C3: every run that ends in a non-skip failure leaves the session
state store untouched (no offset is advanced), and the cli handler
enqueues the original event with the error text as a fresh pending job
with retry count 0. -/
theorem claim3_failure_enqueues (env : PipelineEnv) (event : SessionEvent) (e : String)
    (db : QueueDB) (now : Nat)
    (h : (process_session env event).outcome = .failed e) :
    (process_session env event).stateStore = env.stateStore
    ∧ (log_command env event db now).2
        = ⟨db.jobs ++ [⟨db.nextId, event, .pending, e, 0, now, now⟩], db.nextId + 1⟩ := by
  have aux : ∀ t, (pipelineAfterParse env event t).stateStore = env.stateStore
      ∨ ∃ uid, (pipelineAfterParse env event t).outcome = .success uid := by
    intro t
    simp only [pipelineAfterParse]
    by_cases h1 : t.messages.isEmpty = true
    · rw [if_pos h1]
      exact Or.inl rfl
    · rw [if_neg h1]
      by_cases h2 : t.token_estimate < 50
      · rw [if_pos h2]
        exact Or.inl rfl
      · rw [if_neg h2]
        by_cases h3 : (is_session_trivial t.token_estimate env.classifier).1 = true
        · rw [if_pos h3]
          exact Or.inl rfl
        · rw [if_neg h3]
          cases hsum : env.summarize with
          | error e2 => simp [hsum]
          | ok s =>
              cases hpub : env.publish with
              | error e2 => simp [hsum, hpub]
              | ok uid =>
                  simp only [hsum, hpub]
                  exact Or.inr ⟨uid, rfl⟩
  constructor
  · cases hp : parseForEvent env event with
    | error pe => simp [process_session, hp]
    | ok t =>
        simp only [process_session, hp] at h ⊢
        rcases aux t with hst | ⟨uid, hsu⟩
        · exact hst
        · rw [h] at hsu
          simp at hsu
  · simp only [log_command, h, enqueue_failed]

/-- C3 witness: a run whose parse raises (the transcript holds one
non-object JSON line) changes no state and enqueues a pending job
carrying the error text. -/
theorem claim3_witness :
    (process_session envC3 eventC3).stateStore = envC3.stateStore
    ∧ (log_command envC3 eventC3 ⟨[], 1⟩ 7).2
        = ⟨[⟨1, eventC3, .pending, "AttributeError", 0, 7, 7⟩], 2⟩ := by
  have h := claim3_failure_enqueues envC3 eventC3 "AttributeError" ⟨[], 1⟩ 7 rfl
  exact ⟨h.1, h.2.trans rfl⟩

/-- C1: a claude-code run with stored state parses the transcript at
offset `last_line_count = N`; the parse result surfaces exactly the
messages a fresh parse of the transcript beyond line N yields while
still reporting the full line count, and when zero new messages result
the run ends skipped with the no-new-content reason. -/
theorem claim1_offset_parse (env : PipelineEnv) (event : SessionEvent) (st : SessionState)
    (hsrc : event.source = .claude_code)
    (hst : env.stateStore event.session_id = some st) :
    parseForEvent env event
      = parse_claude_code_transcript_inc env.transcript st.last_line_count
    ∧ ∀ t, parse_claude_code_transcript_inc env.transcript st.last_line_count = .ok t →
        parse_claude_code_transcript (env.transcript.drop st.last_line_count)
            = .ok ⟨t.messages, t.raw_text, t.token_estimate⟩
          ∧ t.total_lines = env.transcript.length
          ∧ (t.messages = [] →
              process_session env event
                = ⟨.skipped "No new content since last log", env.stateStore, false⟩) := by
  have hpe : parseForEvent env event
      = parse_claude_code_transcript_inc env.transcript st.last_line_count := by
    simp only [parseForEvent, hsrc, runStartLine, hst]
  refine ⟨hpe, ?_⟩
  intro t ht
  cases hc : collectLines (env.transcript.drop st.last_line_count) with
  | error e =>
      simp only [parse_claude_code_transcript_inc, hc] at ht
      exact Except.noConfusion ht
  | ok pair =>
      obtain ⟨ms, ps⟩ := pair
      obtain ⟨tm, tr, te, tl⟩ := t
      simp only [parse_claude_code_transcript_inc, hc, Except.ok.injEq,
        ParsedTranscriptFull.mk.injEq] at ht
      obtain ⟨h1, h2, h3, h4⟩ := ht
      subst h1 h2 h3 h4
      refine ⟨?_, rfl, ?_⟩
      · simp only [parse_claude_code_transcript, hc]
      · intro hm
        subst hm
        simp only [process_session, hpe, parse_claude_code_transcript_inc, hc,
          pipelineAfterParse, List.isEmpty_nil, if_true]

/-- C1 witness: with stored offset 3 on a three-line transcript, the
fresh parse of the dropped suffix is empty and the run is skipped with
the no-new-content reason. -/
theorem claim1_witness :
    (process_session envC1 eventC1).outcome = .skipped "No new content since last log"
    ∧ parse_claude_code_transcript (envC1.transcript.drop stC1.last_line_count)
        = .ok ⟨[], "", 0⟩ := by
  have h := claim1_offset_parse envC1 eventC1 stC1 rfl rfl
  have h2 := h.2 ⟨[], "", 0, 3⟩ rfl
  exact ⟨by rw [h2.2.2 rfl], h2.1⟩

/-- The glue between `collectLines` and per-line processing: on a file
whose every line processes without an exception, the collected messages
and raw parts are exactly the per-line contributions in order. -/
theorem collectLines_ok_of_lineOk (lines : List SrcLine)
    (h : ∀ l ∈ lines, lineOk l = true) :
    collectLines lines = .ok (lines.filterMap lineMessage, lines.filterMap linePart) := by
  induction lines with
  | nil => rfl
  | cons l rest ih =>
      have hl : lineOk l = true := h l (by simp)
      have hrest := ih (fun x hx => h x (by simp [hx]))
      cases hpl : processLine l with
      | error e =>
          rw [lineOk, hpl] at hl
          simp at hl
      | ok r =>
          simp only [collectLines, hpl, hrest]
          cases r with
          | none => simp [List.filterMap_cons, lineMessage, linePart, hpl]
          | some mp => simp [List.filterMap_cons, lineMessage, linePart, hpl]

/-- C10 counterexample: a transcript file whose single line is valid
JSON but not an object (the JSON literal `null`) makes the parser raise
`AttributeError` at `entry.get("type")` instead of returning a
`ParsedTranscript`, so the parser is not total on arbitrary content. -/
theorem claim10_counterexample :
    parse_claude_code_transcript [SrcLine.jsonLine Json.null]
      = .error PyErr.attributeError := by
  rfl

/-- C10 (amended): on every existing transcript file whose lines all
process without a Python exception (in particular every JSON line is an
object of the shape the parser assumes), the parser returns a
`ParsedTranscript` in which non-JSON lines, non-user/assistant entry
types and entries with no extractable text contribute nothing, and the
token estimate is the length of the concatenated raw text integer-
divided by 4. -/
theorem claim10_total_on_wellshaped (lines : List SrcLine)
    (h : ∀ l ∈ lines, lineOk l = true) :
    ∃ t, parse_claude_code_transcript lines = .ok t
      ∧ t.token_estimate = t.raw_text.length / 4
      ∧ t.messages = lines.filterMap lineMessage := by
  simp only [parse_claude_code_transcript, collectLines_ok_of_lineOk lines h]
  exact ⟨_, rfl, rfl, rfl⟩

/-- C10 witness: a four-line fixture file (one user message, one
malformed line, one snapshot entry, one blank line) is well shaped and
parses to its single message with the divided-by-4 estimate. -/
theorem claim10_witness :
    (∀ l ∈ linesC10, lineOk l = true)
    ∧ ∃ t, parse_claude_code_transcript linesC10 = .ok t
        ∧ t.token_estimate = t.raw_text.length / 4
        ∧ t.messages = linesC10.filterMap lineMessage :=
  ⟨by decide, claim10_total_on_wellshaped linesC10 (by decide)⟩

end AiLogger
